import Mathlib

/-!
Verification development for the IMSCC quiz parser.

The repository is a small Express application, in three near-duplicate
variants, that unpacks an IMSCC archive, resolves assessment resources from
the package manifest, and extracts a normalized quiz representation from each
QTI assessment XML document.  This file gives a shallow embedding of the
extraction core:

* `stripHtmlTags` embeds the helper of the same name
  (src/server.js lines 24-27, identical in the two other variants):
  `htmlString.replace(/<[^>]*>?/gm, "").trim()`, with the `!htmlString`
  falsy guard returning the empty string.
* `Qti.classifyItem` embeds the per-item classification / extraction block
  of `processXmlFile` in src/server.js (lines 122-227).
* `Qti.classifyItemU` embeds the per-item block of `processXmlFile` in
  src/api/upload.js (lines 112-170).
* `Qti.resolveAssessments` embeds the resource resolution of the
  `/api/upload` handler in src/unnamed/part_000 (lines 288-310);
  `Qti.resolveAssessmentsServer` embeds the corresponding block of
  src/server.js (lines 272-285), which performs no singleton-or-list
  normalization.
* `Qti.serverUploadResidue` / `Qti.apiUploadResidue` embed the scratch-file
  accounting of the two upload handlers.

Values produced by the xml2js parser (options `explicitArray: false`,
`mergeAttrs: true`, `charkey: "#"`) are modelled by `Option`-typed
structures: a field that may be absent in the parsed tree is an `Option`,
and a field that may be either a single node or an array of nodes is an
`Option (OneOrMany _)`.  A JavaScript expression that can throw a
`TypeError` (a method call or property access on a value that may be
`undefined` and is not guarded by `?.`) is embedded in `Except String`.
-/

/-! ## JavaScript string primitives -/

/-- Whitespace recognized by JavaScript `String.prototype.trim`
(the ASCII core plus NBSP and the BOM; no claim exercises the more exotic
Unicode space characters). -/
def jsWhitespace (c : Char) : Bool :=
  c = ' ' || c = '\t' || c = '\n' || c = '\r' ||
  c = '\x0b' || c = '\x0c' || c = ' ' || c = '﻿'

/-- Drop leading whitespace, the left half of `trim`. -/
def trimL (l : List Char) : List Char := l.dropWhile jsWhitespace

/-- Drop trailing whitespace, the right half of `trim`. -/
def trimR (l : List Char) : List Char := (l.reverse.dropWhile jsWhitespace).reverse

/-- JavaScript `String.prototype.trim`: remove leading and trailing
whitespace. -/
def jsTrim (s : String) : String := ⟨trimR (trimL s.data)⟩

/-- One global pass of `replace(/<[^>]*>?/gm, "")` as a two-state scan.
In copy mode (`inTag = false`) a `<` starts a match (regex alternative
`<[^>]*>?`), which consumes characters up to and including the next `>`, or
to the end of the string when no `>` follows; every other character is kept.
In skip mode (`inTag = true`) characters are dropped until the closing `>`
is consumed.  This is exactly the left-to-right global replacement the
regex performs: `[^>]*` cannot cross a `>`, and the optional `>?` then
consumes it. -/
def stripTagsGo : Bool → List Char → List Char
  | _, [] => []
  | true, c :: rest =>
    if c = '>' then stripTagsGo false rest else stripTagsGo true rest
  | false, c :: rest =>
    if c = '<' then stripTagsGo true rest else c :: stripTagsGo false rest

/-- `htmlString.replace(/<[^>]*>?/gm, "")`. -/
def stripTags (s : String) : String := ⟨stripTagsGo false s.data⟩

/-- Embeds `stripHtmlTags` (src/server.js lines 24-27):
`if (!htmlString) return ""; return htmlString.replace(/<[^>]*>?/gm, "").trim();`.
The argument is `Option String` because the call sites pass optionally
chained expressions that may be `undefined`; the falsy guard also returns
`""` for the empty string itself. -/
def stripHtmlTags : Option String → String
  | none => ""
  | some s => if s = "" then "" else jsTrim (stripTags s)

namespace Qti

/-! ## Data model of xml2js item trees

The xml2js parser is configured with `explicitArray: false`, so a repeated
child element becomes an array while a unique child stays a single object:
`OneOrMany` captures this.  Absent children are `Option.none`.
`mergeAttrs: true` folds XML attributes (such as `ident`) into the element
object, and `charkey: "#"` exposes an element's own text content under the
key `"#"` (modelled by the field `chartext`). -/

/-- A parsed child that is a single node or an array of nodes. -/
inductive OneOrMany (α : Type) : Type
  | one : α → OneOrMany α
  | many : List α → OneOrMany α
deriving DecidableEq, Repr

/-- Models `Array.isArray(x) ? x : [x]` applied to a possibly-undefined
value `x`: a non-array (single node or `undefined`) is wrapped in a
one-element array, so the elements are possibly-undefined themselves. -/
def jsArrayWrap : Option (OneOrMany α) → List (Option α)
  | none => [none]
  | some (.one a) => [some a]
  | some (.many l) => l.map some

/-- A `<mattext>` node: its text content (`["#"]`). -/
structure Mattext where
  chartext : Option String
deriving DecidableEq, Repr

/-- A `<material>` node. -/
structure Material where
  mattext : Option Mattext
deriving DecidableEq, Repr

/-- A `<response_label>` node: `ident` attribute and nested material. -/
structure Label where
  ident : Option String
  material : Option Material
deriving DecidableEq, Repr

/-- A `<render_choice>` node. -/
structure RenderChoice where
  response_label : Option (OneOrMany Label)
deriving DecidableEq, Repr

/-- A `<response_lid>` node. -/
structure ResponseLid where
  render_choice : Option RenderChoice
deriving DecidableEq, Repr

/-- A `<presentation>` node.  The code only tests `response_str` for
presence, so it is modelled as `Option Unit`. -/
structure Presentation where
  material : Option Material
  response_lid : Option ResponseLid
  response_str : Option Unit
deriving DecidableEq, Repr

/-- A `<varequal>` node: its text content (`["#"]`). -/
structure VarEqual where
  chartext : Option String
deriving DecidableEq, Repr

/-- A `<conditionvar>` node. -/
structure ConditionVar where
  varequal : Option VarEqual
deriving DecidableEq, Repr

/-- The attribute object `setvar.$` read by src/api/upload.js
(`cond.setvar.$?.varname`).  With `mergeAttrs: true` this key is never
produced by the parser, but the code dereferences it, so it is part of the
model. -/
structure SetVarDollar where
  varname : Option String
deriving DecidableEq, Repr

/-- A `<setvar>` node: the `val` property read by src/server.js, the text
content read by src/api/upload.js, and the `$` attribute object. -/
structure SetVar where
  val : Option String
  chartext : Option String
  dollar : Option SetVarDollar
deriving DecidableEq, Repr

/-- A `<respcondition>` node. -/
structure RespCondition where
  conditionvar : Option ConditionVar
  setvar : Option SetVar
deriving DecidableEq, Repr

/-- A `<resprocessing>` node. -/
structure RespProcessing where
  respcondition : Option (OneOrMany RespCondition)
deriving DecidableEq, Repr

/-- A `<qtimetadatafield>` node. -/
structure Field where
  fieldlabel : Option String
  fieldentry : Option String
deriving DecidableEq, Repr

/-- A `<qtimetadata>` node. -/
structure QtiMetadata where
  qtimetadatafield : Option (OneOrMany Field)
deriving DecidableEq, Repr

/-- An `<itemmetadata>` node. -/
structure ItemMetadata where
  qtimetadata : Option QtiMetadata
deriving DecidableEq, Repr

/-- An `<item>` node as navigated by `processXmlFile`. -/
structure Item where
  ident : Option String
  presentation : Option Presentation
  itemmetadata : Option ItemMetadata
  resprocessing : Option RespProcessing
deriving DecidableEq, Repr

/-- An extracted option: `{ identifier, text }`. -/
structure Choice where
  identifier : String
  text : String
deriving DecidableEq, Repr

/-- The `correctAnswer` field, which the code assigns either a plain string
or an `{ id, text }` object. -/
inductive CorrectAnswer : Type
  | str : String → CorrectAnswer
  | pair : (id : String) → (text : String) → CorrectAnswer
deriving DecidableEq, Repr

/-- The per-item output object built by `processXmlFile`. -/
structure Question where
  itemIdentifier : String
  questionText : String
  responseType : String
  options : List Choice
  correctAnswer : CorrectAnswer
  score : String
deriving DecidableEq, Repr

/-! ## Item classification and extraction (src/server.js, lines 122-227) -/

/-- `item.presentation?.response_lid?.render_choice`. -/
def renderChoiceOf (item : Item) : Option RenderChoice :=
  (item.presentation.bind (·.response_lid)).bind (·.render_choice)

/-- `item.presentation?.response_str` (tested for presence only). -/
def responseStrOf (item : Item) : Option Unit :=
  item.presentation.bind (·.response_str)

/-- `item.presentation?.material?.mattext?.["#"]`. -/
def presentationTextOf (item : Item) : Option String :=
  ((item.presentation.bind (·.material)).bind (·.mattext)).bind (·.chartext)

/-- `item.itemmetadata?.qtimetadata?.qtimetadatafield`. -/
def metadataFieldsOf (item : Item) : Option (OneOrMany Field) :=
  (item.itemmetadata.bind (·.qtimetadata)).bind (·.qtimetadatafield)

/-- `item.resprocessing?.respcondition` (guarded by `?.` at each step, so a
missing node short-circuits to `undefined`). -/
def respconditionOf (item : Item) : Option (OneOrMany RespCondition) :=
  item.resprocessing.bind (·.respcondition)

/-- Score resolution (src/server.js lines 135-159, identical in
src/unnamed/part_000 lines 141-167 up to the `.filter(Boolean)` on an
absent metadata field, which does not change the result):

```
const qtimetadatafields = Array.isArray(f) ? f : [f];
const weightField = qtimetadatafields.find((field) => field?.fieldlabel === "cc_weighting");
if (weightField) { score = weightField.fieldentry ?? "N/A"; }
else {
  const resprocessing = item.resprocessing;
  if (resprocessing && resprocessing.respcondition) {
    const respcondition = Array.isArray(rc) ? rc[0] : rc;
    if (respcondition?.setvar) { score = respcondition.setvar.val ?? "N/A"; }
  }
}
```

The `else` arm (the setvar fallback) is split out as
`resolveScoreFallback`. -/
def resolveScoreFallback (item : Item) : String :=
  match item.resprocessing with
  | none => "N/A"
  | some resprocessing =>
    match resprocessing.respcondition with
    | none => "N/A"
    | some rcs =>
      let respcondition : Option RespCondition :=
        match rcs with
        | .many l => l.head?
        | .one rc => some rc
      match respcondition.bind (·.setvar) with
      | some setvar => setvar.val.getD "N/A"
      | none => "N/A"

def resolveScore (item : Item) : String :=
  let qtimetadatafields := jsArrayWrap (metadataFieldsOf item)
  match qtimetadatafields.find?
      (fun f? => (f?.bind (·.fieldlabel)) == some "cc_weighting") with
  | some f? =>
    match f? with
    | some f => f.fieldentry.getD "N/A"
    | none => "N/A"
  | none => resolveScoreFallback item

/-- The essay test (src/server.js lines 209-218): when the raw
`qtimetadatafield` value is an array, `find` a field with
`fieldlabel === "cc_profile" && fieldentry === "cc.essay.v0p1"` (the found
object is truthy); when it is a single node, test that node; when it is
absent, both `===` comparisons against `undefined` are false. -/
def isEssayProfile (item : Item) : Bool :=
  match metadataFieldsOf item with
  | some (.many fs) =>
    (fs.find? (fun f =>
      f.fieldlabel == some "cc_profile" && f.fieldentry == some "cc.essay.v0p1")).isSome
  | some (.one f) =>
    f.fieldlabel == some "cc_profile" && f.fieldentry == some "cc.essay.v0p1"
  | none => false

/-- The options loop of the Multiple-Choice branch (src/server.js lines
164-183): list-normalize `render_choice.response_label` and push one
`Choice` per entry.  When `response_label` is absent the normalized array is
`[undefined]` and `choice.ident` throws a `TypeError`.  The
`stripHtmlTags(...) ?? "N/A"` of the source is embedded as the bare
`stripHtmlTags` call: the helper always returns a string, so the `?? "N/A"`
arm is unreachable. -/
def extractOptions (rc : RenderChoice) : Except String (List Choice) :=
  (jsArrayWrap rc.response_label).mapM (fun l? =>
    match l? with
    | none => .error "TypeError: cannot read ident of undefined"
    | some l =>
      .ok { identifier := l.ident.getD "N/A",
            text := stripHtmlTags ((l.material.bind (·.mattext)).bind (·.chartext)) })

/-- `item.resprocessing?.respcondition?.find((cond) => cond.setvar)`
(src/server.js lines 185-188).  A missing `respcondition` short-circuits to
`undefined`; a single (non-array) node has no `find` method, so the call
throws a `TypeError`. -/
def findSetvarCond (item : Item) : Except String (Option RespCondition) :=
  match respconditionOf item with
  | none => .ok none
  | some (.one _) => .error "TypeError: respcondition.find is not a function"
  | some (.many rcs) => .ok (rcs.find? (fun cond => cond.setvar.isSome))

/-- The Fill-in-the-Blank correct answer (src/server.js lines 205-207):
`item.resprocessing?.respcondition?.[0]?.conditionvar?.varequal?.["#"] ?? "N/A"`.
On a single (non-array) `respcondition` node the index `[0]` is an absent
property, so the chain yields `undefined` and the default applies. -/
def fibAnswer (item : Item) : String :=
  (match respconditionOf item with
   | some (.many rcs) =>
     (((rcs.head?.bind (·.conditionvar)).bind (·.varequal)).bind (·.chartext))
   | some (.one _) => none
   | none => none).getD "N/A"

/-- Embeds the per-item classification of `processXmlFile` in src/server.js
(lines 122-227).  Field defaults, score resolution, the three classification
branches (choice-rendering structure, free-text response structure, essay
profile tag) and the final `Unknown` fallback follow the source order.
`Except` carries the `TypeError`s the source can throw. -/
def classifyItem (item : Item) : Except String Question :=
  let itemIdentifier := item.ident.getD "N/A"
  let questionText := stripHtmlTags (presentationTextOf item)
  let score := resolveScore item
  match renderChoiceOf item with
  | some rc =>
    match extractOptions rc with
    | .error e => .error e
    | .ok options =>
      match findSetvarCond item with
      | .error e => .error e
      | .ok (some correctResponse) =>
        let correctIdent :=
          jsTrim ((((correctResponse.conditionvar.bind (·.varequal)).bind
            (·.chartext))).getD "")
        let correctChoice := options.find? (fun option => option.identifier == correctIdent)
        .ok { itemIdentifier, questionText, responseType := "Multiple Choice",
              options,
              correctAnswer := .pair correctIdent ((correctChoice.map (·.text)).getD "N/A"),
              score }
      | .ok none =>
        .ok { itemIdentifier, questionText, responseType := "Multiple Choice",
              options, correctAnswer := .pair "N/A" "N/A", score }
  | none =>
    match responseStrOf item with
    | some _ =>
      .ok { itemIdentifier, questionText, responseType := "Fill-in-the-Blank",
            options := [], correctAnswer := .str (fibAnswer item), score }
    | none =>
      if isEssayProfile item then
        .ok { itemIdentifier, questionText, responseType := "Essay",
              options := [], correctAnswer := .str "Manual scoring required.",
              score := "Manual grading" }
      else
        .ok { itemIdentifier, questionText, responseType := "Unknown",
              options := [], correctAnswer := .str "N/A", score }

/-! ## Item classification in the src/api/upload.js variant (lines 112-170)

This variant initializes `responseType: "N/A"` and only has a
Multiple-Choice branch; an item without a choice-rendering structure keeps
every placeholder.  Its `find` predicate is
`cond.setvar && cond.setvar.$?.varname === "SCORE"`, and its `correctIdent`
is not trimmed. -/

def findSetvarScoreCond (item : Item) : Except String (Option RespCondition) :=
  match respconditionOf item with
  | none => .ok none
  | some (.one _) => .error "TypeError: respcondition.find is not a function"
  | some (.many rcs) =>
    .ok (rcs.find? (fun cond =>
      cond.setvar.isSome &&
        ((cond.setvar.bind (·.dollar)).bind (·.varname)) == some "SCORE"))

/-- Embeds the per-item block of `processXmlFile` in src/api/upload.js
(lines 112-170). -/
def classifyItemU (item : Item) : Except String Question :=
  let itemIdentifier := item.ident.getD "N/A"
  let questionText := stripHtmlTags (presentationTextOf item)
  match renderChoiceOf item with
  | some rc =>
    match extractOptions rc with
    | .error e => .error e
    | .ok options =>
      match findSetvarScoreCond item with
      | .error e => .error e
      | .ok (some correctResponse) =>
        let correctIdent :=
          (((correctResponse.conditionvar.bind (·.varequal)).bind
            (·.chartext))).getD ""
        let correctChoice := options.find? (fun opt => opt.identifier == correctIdent)
        .ok { itemIdentifier, questionText, responseType := "Multiple Choice",
              options,
              correctAnswer := .pair correctIdent ((correctChoice.map (·.text)).getD "N/A"),
              score := (correctResponse.setvar.bind (·.chartext)).getD "N/A" }
      | .ok none =>
        .ok { itemIdentifier, questionText, responseType := "Multiple Choice",
              options, correctAnswer := .str "N/A", score := "N/A" }
  | none =>
    .ok { itemIdentifier, questionText, responseType := "N/A",
          options := [], correctAnswer := .str "N/A", score := "N/A" }

/-! ## Manifest resource resolution -/

/-- A `<file>` entry under a `<resource>`. -/
structure FileEntry where
  href : Option String
deriving DecidableEq, Repr

/-- A `<resource>` entry of the manifest. -/
structure Resource where
  type : Option String
  file : Option (OneOrMany FileEntry)
deriving DecidableEq, Repr

/-- The manifest's `<resources>` node. -/
structure Resources where
  resource : Option (OneOrMany Resource)
deriving DecidableEq, Repr

/-- The fixed assessment type tag. -/
def assessmentType : String := "imsqti_xmlv1p2/imscc_xmlv1p3/assessment"

/-- Embeds the resource resolution of the `/api/upload` handler in
src/unnamed/part_000 (lines 288-310): singleton-or-list normalize
`resources.resource` (with `.filter(Boolean)` on the wrapped value, so an
absent value yields the empty list), filter on the exact type tag,
list-normalize each resource's `file`, take `files[0]?.href`, and keep only
resources whose `relativePath` is truthy (`undefined` and `""` are both
skipped by `if (relativePath)`).  The result is the ordered list of
referenced assessment file paths. -/
def resolveAssessments (resources : Resources) : List String :=
  let rs : List Resource :=
    match resources.resource with
    | none => []
    | some (.one r) => [r]
    | some (.many l) => l
  let quizFiles := rs.filter (fun r => r.type == some assessmentType)
  quizFiles.filterMap (fun r =>
    let files : List FileEntry :=
      match r.file with
      | none => []
      | some (.one f) => [f]
      | some (.many l) => l
    match files.head?.bind (·.href) with
    | some relativePath => if relativePath = "" then none else some relativePath
    | none => none)

/-- Embeds the corresponding block of src/server.js (lines 272-285), which
does not normalize: `resources.filter(...)` throws when
`manifest.manifest.resources.resource` is a single node or absent, and
`resource.file.href` throws (in `path.join`) when the `file` entry is
absent, is an array, or lacks an `href`. -/
def resolveAssessmentsServer (resources : Resources) : Except String (List String) :=
  match resources.resource with
  | some (.many l) =>
    (l.filter (fun r => r.type == some assessmentType)).mapM (fun r =>
      match r.file with
      | some (.one f) =>
        match f.href with
        | some href => .ok href
        | none => .error "TypeError: path.join received undefined"
      | some (.many _) => .error "TypeError: path.join received undefined"
      | none => .error "TypeError: cannot read href of undefined")
  | some (.one _) => .error "TypeError: resources.filter is not a function"
  | none => .error "TypeError: cannot read filter of undefined"

/-! ## Scratch-file accounting of the upload handlers

The two handlers differ only in plumbing up to the `finally` block, so the
cleanup behaviour is modelled as a function from the outcome of each
fallible step to the scratch entries left on disk.  Removal operations are
taken to succeed, matching the external collaborator contract of the
scratch-directory provider. -/

/-- Which fallible steps of one upload request succeed. -/
structure UploadEnv where
  hasFile : Bool
  mkdtempOk : Bool
  unzipOk : Bool
  readManifestOk : Bool
  parseManifestOk : Bool
  extractOk : Bool
deriving DecidableEq, Repr

/-- Scratch entries still on disk after the handler returns. -/
structure ScratchResidue where
  stagedFile : Bool
  scratchDir : Bool
deriving DecidableEq, Repr

/-- Embeds the exit paths of `app.post("/upload")` in src/server.js (lines
236-304).  Multer stages the upload iff the request carries a file; the
handler returns 400 before creating anything else when it does not.  The
scratch directory exists iff `mkdtemp` succeeded.  The `finally` block
(lines 291-303) runs on success and on every `catch`-routed failure:
`unlink(imsccFilePath)` when `req.file` is set, and `rm(tempDirPath,
{recursive, force})` when `tempDirPath` was assigned. -/
def serverUploadResidue (env : UploadEnv) : ScratchResidue :=
  let staged := env.hasFile
  let dirCreated := env.hasFile && env.mkdtempOk
  let fileRemoved := env.hasFile
  let dirRemoved := dirCreated
  { stagedFile := staged && !fileRemoved, scratchDir := dirCreated && !dirRemoved }

/-- Embeds the exit paths of the `handler` in src/api/upload.js (lines
177-242): the staged upload and the `mkdtemp` directory are created the
same way, but no path — success, caught error, or early return — unlinks
the staged file or removes the directory. -/
def apiUploadResidue (env : UploadEnv) : ScratchResidue :=
  let staged := env.hasFile
  let dirCreated := env.hasFile && env.mkdtempOk
  { stagedFile := staged, scratchDir := dirCreated }

/-! ## Claim-side definitions and concrete inputs -/

/-- The fallback step of `scoreSpec`: the first response-condition's
set-variable value, default `"N/A"`. -/
def scoreSpecFallback (item : Item) : String :=
  let firstCond : Option RespCondition :=
    match respconditionOf item with
    | none => none
    | some (.one rc) => some rc
    | some (.many rcs) => rcs.head?
  match firstCond.bind (·.setvar) with
  | some setvar => setvar.val.getD "N/A"
  | none => "N/A"

/-- Score resolution as the specification words it: search the
list-normalized metadata field list for a field labeled `cc_weighting`; if
found its entry value is the score; otherwise fall back to the first
response-condition's set-variable value; default `"N/A"`. -/
def scoreSpec (item : Item) : String :=
  let fields : List Field :=
    match metadataFieldsOf item with
    | none => []
    | some (.one f) => [f]
    | some (.many fs) => fs
  match fields.find? (fun f => f.fieldlabel == some "cc_weighting") with
  | some f => f.fieldentry.getD "N/A"
  | none => scoreSpecFallback item

/-- True exactly when `classifyItem` takes the Essay branch. -/
def essayBranch (item : Item) : Bool :=
  (renderChoiceOf item).isNone && (responseStrOf item).isNone && isEssayProfile item

/-- A response-condition equating to `"A"` and setting a score variable. -/
def mcRespCond : RespCondition :=
  { conditionvar := some { varequal := some { chartext := some "A" } },
    setvar := some { val := some "100", chartext := some "100", dollar := none } }

/-- Choice labels `A ↦ Paris`, `B ↦ Rome`. -/
def mcLabels : List Label :=
  [ { ident := some "A",
      material := some { mattext := some { chartext := some "Paris" } } },
    { ident := some "B",
      material := some { mattext := some { chartext := some "Rome" } } } ]

/-- A multiple-choice item whose `resprocessing.respcondition` is a single
node (the XML held exactly one `<respcondition>`). -/
def mcItemSingleCond : Item :=
  { ident := some "q1",
    presentation := some
      { material := some { mattext := some { chartext := some "Capital of France?" } },
        response_lid := some
          { render_choice := some { response_label := some (.many mcLabels) } },
        response_str := none },
    itemmetadata := none,
    resprocessing := some { respcondition := some (.one mcRespCond) } }

/-- The same item with `respcondition` parsed as a (one-element) array. -/
def mcItemListCond : Item :=
  { mcItemSingleCond with
    resprocessing := some { respcondition := some (.many [mcRespCond]) } }

/-- A fill-in-blank response-condition equating to `"Rome"`. -/
def fibRespCond : RespCondition :=
  { conditionvar := some { varequal := some { chartext := some "Rome" } },
    setvar := none }

/-- A fill-in-blank item whose `respcondition` is a single node. -/
def fibItemSingleCond : Item :=
  { ident := some "q2",
    presentation := some
      { material := none, response_lid := none, response_str := some () },
    itemmetadata := none,
    resprocessing := some { respcondition := some (.one fibRespCond) } }

/-- The same item with `respcondition` parsed as a (one-element) array. -/
def fibItemListCond : Item :=
  { fibItemSingleCond with
    resprocessing := some { respcondition := some (.many [fibRespCond]) } }

/-- An item with no presentation at all (absent material text, no response
structures) and no metadata. -/
def bareItem : Item :=
  { ident := some "q4", presentation := none, itemmetadata := none,
    resprocessing := none }

/-- `cc_profile = cc.essay.v0p1`. -/
def essayField : Field :=
  { fieldlabel := some "cc_profile", fieldentry := some "cc.essay.v0p1" }

/-- `cc_weighting = 5`. -/
def weightField5 : Field :=
  { fieldlabel := some "cc_weighting", fieldentry := some "5" }

/-- Metadata declaring the essay profile together with a weighting. -/
def essayMeta : ItemMetadata :=
  { qtimetadata := some { qtimetadatafield := some (.many [essayField, weightField5]) } }

/-- An essay-profile item that also carries a `cc_weighting` field. -/
def essayItem : Item :=
  { ident := some "e1", presentation := none,
    itemmetadata := some essayMeta,
    resprocessing := none }

/-- An item whose metadata declares the essay profile but whose presentation
also contains a choice-rendering structure. -/
def essayMcItem : Item :=
  { essayItem with
    presentation := some
      { material := none,
        response_lid := some
          { render_choice := some { response_label := some (.many mcLabels) } },
        response_str := none } }

/-- A multiple-choice item with a missing choice ident and a choice whose
material text is absent. -/
def mcItemDefaults : Item :=
  { ident := none,
    presentation := some
      { material := none,
        response_lid := some
          { render_choice := some { response_label := some (.many
              [ { ident := none,
                  material := some { mattext := some { chartext := some "Paris" } } },
                { ident := some "B", material := none } ]) } },
        response_str := none },
    itemmetadata := none,
    resprocessing := none }

/-- A single non-list, non-assessment resource entry. -/
def singletonResources : Resources :=
  { resource := some (.one { type := some "webcontent", file := none }) }

/-- An environment in which every step of an upload request succeeds. -/
def allOkEnv : UploadEnv :=
  { hasFile := true, mkdtempOk := true, unzipOk := true,
    readManifestOk := true, parseManifestOk := true, extractOk := true }

/-- Metadata carrying a single `cc_weighting = 7` field. -/
def weightMeta : ItemMetadata :=
  { qtimetadata := some
      { qtimetadatafield := some (.one { fieldlabel := some "cc_weighting",
                                         fieldentry := some "7" }) } }

/-- An item whose only notable content is a `cc_weighting` metadata field. -/
def weightItem : Item :=
  { ident := some "w1", presentation := none, itemmetadata := some weightMeta,
    resprocessing := none }

/-- A non-assessment resource (type `webcontent`, no file entry). -/
def webResource : Resource := { type := some "webcontent", file := none }

/-- An assessment-type resource referencing `quiz.xml`. -/
def quizResource : Resource :=
  { type := some assessmentType, file := some (.one { href := some "quiz.xml" }) }

/-- An assessment-type resource with no file entry at all. -/
def fileLessResource : Resource := { type := some assessmentType, file := none }

end Qti

/-! ## Lemmas about the sanitizer -/

theorem stripTagsGo_true_cons (a : Char) (rest : List Char) :
    stripTagsGo true (a :: rest) =
      if a = '>' then stripTagsGo false rest else stripTagsGo true rest := rfl

theorem stripTagsGo_false_cons (a : Char) (rest : List Char) :
    stripTagsGo false (a :: rest) =
      if a = '<' then stripTagsGo true rest else a :: stripTagsGo false rest := rfl

theorem stripTagsGo_not_lt (l : List Char) :
    ∀ (b : Bool), ∀ c ∈ stripTagsGo b l, c ≠ '<' := by
  induction l with
  | nil => intro b c hc; cases b <;> simp [stripTagsGo] at hc
  | cons a rest ih =>
    intro b c hc
    cases b with
    | true =>
      rw [stripTagsGo_true_cons] at hc
      by_cases h : a = '>'
      · rw [if_pos h] at hc; exact ih false c hc
      · rw [if_neg h] at hc; exact ih true c hc
    | false =>
      rw [stripTagsGo_false_cons] at hc
      by_cases h : a = '<'
      · rw [if_pos h] at hc; exact ih true c hc
      · rw [if_neg h] at hc
        rcases List.mem_cons.mp hc with rfl | hc
        · exact h
        · exact ih false c hc

theorem stripTagsGo_eq_self (l : List Char) (h : ∀ c ∈ l, c ≠ '<') :
    stripTagsGo false l = l := by
  induction l with
  | nil => rfl
  | cons a rest ih =>
    rw [stripTagsGo_false_cons, if_neg (h a (List.mem_cons_self a rest))]
    rw [ih fun d hd => h d (List.mem_cons_of_mem a hd)]

theorem dropWhile_idem (p : α → Bool) (l : List α) :
    (l.dropWhile p).dropWhile p = l.dropWhile p := by
  induction l with
  | nil => simp
  | cons a t ih =>
    by_cases h : p a
    · simp [List.dropWhile_cons, h, ih]
    · simp [List.dropWhile_cons, h]

theorem trimL_idem (l : List Char) : trimL (trimL l) = trimL l :=
  dropWhile_idem jsWhitespace l

theorem trimR_idem (l : List Char) : trimR (trimR l) = trimR l := by
  unfold trimR
  rw [List.reverse_reverse, dropWhile_idem]

theorem dropWhile_append_full (p : Char → Bool) (l₁ l₂ : List Char) :
    (l₁ ++ l₂).dropWhile p =
      if l₁.dropWhile p = [] then l₂.dropWhile p else l₁.dropWhile p ++ l₂ := by
  induction l₁ with
  | nil => simp
  | cons a t ih =>
    by_cases h : p a
    · simp [List.dropWhile_cons, h, ih]
    · simp [List.dropWhile_cons, h]

theorem head_not_ws_of_trimL_fix (a : Char) (t : List Char)
    (h : trimL (a :: t) = a :: t) : jsWhitespace a = false := by
  by_cases hw : jsWhitespace a
  · exfalso
    have h1 : trimL (a :: t) = trimL t := by
      simp [trimL, List.dropWhile_cons, hw]
    rw [h1] at h
    have hlen : (trimL t).length ≤ t.length := (List.dropWhile_sublist _).length_le
    rw [h] at hlen
    simp at hlen
  · simpa using hw

theorem trimL_trimR (l : List Char) (h : trimL l = l) :
    trimL (trimR l) = trimR l := by
  cases l with
  | nil => rfl
  | cons a t =>
    have ha : jsWhitespace a = false := head_not_ws_of_trimL_fix a t h
    simp only [trimR, List.reverse_cons]
    rw [dropWhile_append_full]
    by_cases hnil : t.reverse.dropWhile jsWhitespace = []
    · rw [if_pos hnil]
      simp [trimL, List.dropWhile_cons, ha]
    · rw [if_neg hnil]
      rw [List.reverse_append]
      simp [trimL, List.dropWhile_cons, ha]

theorem jsTrim_idem (s : String) : jsTrim (jsTrim s) = jsTrim s := by
  show (⟨trimR (trimL (trimR (trimL s.data)))⟩ : String) = ⟨trimR (trimL s.data)⟩
  rw [trimL_trimR (trimL s.data) (trimL_idem s.data), trimR_idem]

theorem mem_trimL (l : List Char) {c : Char} (h : c ∈ trimL l) : c ∈ l :=
  (List.dropWhile_sublist _).mem h

theorem mem_trimR (l : List Char) {c : Char} (h : c ∈ trimR l) : c ∈ l := by
  unfold trimR at h
  rw [List.mem_reverse] at h
  exact List.mem_reverse.mp ((List.dropWhile_sublist _).mem h)

theorem jsTrim_data_subset (s : String) {c : Char} (h : c ∈ (jsTrim s).data) :
    c ∈ s.data :=
  mem_trimL s.data (mem_trimR (trimL s.data) h)

theorem stripHtmlTags_not_lt (s? : Option String) :
    ∀ c ∈ (stripHtmlTags s?).data, c ≠ '<' := by
  intro c hc
  match s? with
  | none => simp [stripHtmlTags] at hc
  | some s =>
    by_cases hs : s = ""
    · simp [stripHtmlTags, hs] at hc
    · simp only [stripHtmlTags, if_neg hs] at hc
      have := jsTrim_data_subset (stripTags s) hc
      exact stripTagsGo_not_lt s.data false c this

theorem stripHtmlTags_of_not_lt (s : String) (h : ∀ c ∈ s.data, c ≠ '<') :
    stripHtmlTags (some s) = jsTrim s := by
  by_cases hs : s = ""
  · subst hs
    simp [stripHtmlTags, jsTrim, trimL, trimR]
  · simp only [stripHtmlTags, if_neg hs]
    have : stripTags s = s := by
      show (⟨stripTagsGo false s.data⟩ : String) = s
      rw [stripTagsGo_eq_self s.data h]
    rw [this]

/-! ## Claim C8 -/

/-- C8: `sanitize` (the source's `stripHtmlTags`) returns the empty string
for null/absent input; it removes all `<...>` markup and trims surrounding
whitespace, raising no errors (it is a total function); a string containing
no markup (no `<` character) is returned unchanged except for trimming; and
`stripHtmlTags("<p>Hello <b>World</b></p>") = "Hello World"`. -/
theorem c8_sanitize_contract (s : String) (h : ∀ c ∈ s.data, c ≠ '<') :
    stripHtmlTags (some s) = jsTrim s ∧
    stripHtmlTags none = "" ∧
    stripHtmlTags (some "<p>Hello <b>World</b></p>") = "Hello World" :=
  ⟨stripHtmlTags_of_not_lt s h, rfl, by decide⟩

/-- Witness for `c8_sanitize_contract` at the markup-free string
`"  Hello World  "`. -/
theorem c8_sanitize_contract_witness :
    stripHtmlTags (some "  Hello World  ") = jsTrim "  Hello World  " ∧
    stripHtmlTags none = "" ∧
    stripHtmlTags (some "<p>Hello <b>World</b></p>") = "Hello World" :=
  c8_sanitize_contract "  Hello World  " (by decide)

/-! ## Claim C10 -/

/-- C10: `sanitize` is idempotent: its output never contains `<` and is
already trimmed, so a second application changes nothing. -/
theorem c10_sanitize_idempotent (s : String) :
    stripHtmlTags (some (stripHtmlTags (some s))) = stripHtmlTags (some s) := by
  by_cases hs : s = ""
  · simp [stripHtmlTags, hs]
  · have hr : stripHtmlTags (some s) = jsTrim (stripTags s) := by
      simp [stripHtmlTags, hs]
    rw [hr]
    by_cases hr0 : jsTrim (stripTags s) = ""
    · simp [stripHtmlTags, hr0]
    · rw [stripHtmlTags_of_not_lt (jsTrim (stripTags s)) (by
        intro c hc
        have := jsTrim_data_subset (stripTags s) hc
        exact stripTagsGo_not_lt s.data false c this)]
      exact jsTrim_idem (stripTags s)

namespace Qti

/-! ## Claim C1 -/

/-- C1: for a multiple-choice item whose response processing holds a LIST of
response-conditions, the extractor finds the first condition with a
set-variable, trims its equality target, and resolves it against the
options — on the specification's own example it yields
`{id:"A", text:"Paris"}`.  But on the same item with exactly ONE
response-condition (a single non-array node, the case the claim explicitly
includes) the code calls `.find` on a non-array and throws a `TypeError`
instead of extracting anything: the code, not the claim, is at fault, since
the sibling score-resolution code of the same function list-normalizes
`respcondition` and the error taxonomy reserves hard failures for
unparsable XML. -/
theorem c1_mc_correct_answer :
    classifyItem mcItemListCond =
      .ok { itemIdentifier := "q1", questionText := "Capital of France?",
            responseType := "Multiple Choice",
            options := [ { identifier := "A", text := "Paris" },
                         { identifier := "B", text := "Rome" } ],
            correctAnswer := .pair "A" "Paris", score := "100" } ∧
    classifyItem mcItemSingleCond =
      .error "TypeError: respcondition.find is not a function" := by
  constructor <;> rfl

/-! ## Claim C4 -/

/-- C4: the claim says absent presentation material text defaults
`questionText` to `"N/A"` and an absent choice material text defaults the
choice text to `"N/A"`.  The code's `stripHtmlTags(...) ?? "N/A"` never
takes the `"N/A"` arm because `stripHtmlTags` returns `""` (never a nullish
value) on absent input, so both texts come out as `""`; only the identifier
default `"N/A"` behaves as claimed.  The theorem evaluates the code at an
item with no presentation and at a multiple-choice item with a missing
choice ident and a choice without material text. -/
theorem c4_default_text_empty :
    classifyItem bareItem =
      .ok { itemIdentifier := "q4", questionText := "",
            responseType := "Unknown", options := [],
            correctAnswer := .str "N/A", score := "N/A" } ∧
    classifyItem mcItemDefaults =
      .ok { itemIdentifier := "N/A", questionText := "",
            responseType := "Multiple Choice",
            options := [ { identifier := "N/A", text := "Paris" },
                         { identifier := "B", text := "" } ],
            correctAnswer := .pair "N/A" "N/A", score := "N/A" } ∧
    ("" : String) ≠ "N/A" := by
  refine ⟨rfl, rfl, ?_⟩
  decide

/-! ## Claim C6 -/

/-- C6: for a fill-in-blank item whose response processing holds a LIST of
response-conditions, the correct answer is the first condition's equality
target.  But on the same item with exactly ONE response-condition (the case
the claim explicitly includes) the indexing `respcondition?.[0]` reads an
absent property of a non-array object, so the code falls back to `"N/A"`
even though the equality target `"Rome"` is present: the code, not the
claim, is at fault, since the sibling score-resolution code of the same
function list-normalizes `respcondition` before indexing. -/
theorem c6_fib_correct_answer :
    classifyItem fibItemListCond =
      .ok { itemIdentifier := "q2", questionText := "",
            responseType := "Fill-in-the-Blank", options := [],
            correctAnswer := .str "Rome", score := "N/A" } ∧
    classifyItem fibItemSingleCond =
      .ok { itemIdentifier := "q2", questionText := "",
            responseType := "Fill-in-the-Blank", options := [],
            correctAnswer := .str "N/A", score := "N/A" } ∧
    (CorrectAnswer.str "N/A") ≠ .str "Rome" := by
  refine ⟨rfl, rfl, ?_⟩
  decide

end Qti


namespace Qti

/-! ## Claim C2 -/

theorem find?_wrap_map (fs : List Field) :
    (fs.map some).find? (fun f? => (f?.bind (·.fieldlabel)) == some "cc_weighting")
      = (fs.find? (fun f => f.fieldlabel == some "cc_weighting")).map some := by
  induction fs with
  | nil => rfl
  | cons f t ih =>
    cases hq : f.fieldlabel == some "cc_weighting" with
    | true => simp [List.find?_cons, hq]
    | false => simp [List.find?_cons, hq, ih]

theorem fallback_eq (item : Item) :
    resolveScoreFallback item = scoreSpecFallback item := by
  unfold resolveScoreFallback scoreSpecFallback respconditionOf
  cases hr : item.resprocessing with
  | none => rfl
  | some rp =>
    cases hrc : rp.respcondition with
    | none => simp [hrc]
    | some rcs => cases rcs <;> simp [hrc]

/-- The source's score computation (find over the `jsArrayWrap`-normalized
possibly-undefined field list, `?.`-guarded label comparison) agrees with
the specification's wording `scoreSpec` on every item. -/
theorem resolveScore_eq_scoreSpec (item : Item) :
    resolveScore item = scoreSpec item := by
  unfold resolveScore scoreSpec
  cases hm : metadataFieldsOf item with
  | none => simp [jsArrayWrap, List.find?, fallback_eq]
  | some oom =>
    cases oom with
    | one f =>
      cases hq : f.fieldlabel == some "cc_weighting" with
      | true => simp [jsArrayWrap, List.find?_cons, hq]
      | false => simp [jsArrayWrap, List.find?_cons, hq, fallback_eq]
    | many fs =>
      simp only [jsArrayWrap]
      rw [find?_wrap_map]
      cases hf : fs.find? (fun f => f.fieldlabel == some "cc_weighting") with
      | none => simp [fallback_eq]
      | some f => simp

/-- C2: whenever `classifyItem` returns a question, its score is the
specification's three-tier resolution (`cc_weighting` entry, else first
response-condition's set-variable value, else `"N/A"`), independent of the
response type taken, except that the Essay branch overrides the score with
`"Manual grading"`. -/
theorem c2_score_resolution (item : Item) (q : Question)
    (h : classifyItem item = Except.ok q) :
    q.score = if essayBranch item then "Manual grading" else scoreSpec item := by
  cases hrc : renderChoiceOf item with
  | some rc =>
    cases hopt : extractOptions rc with
    | error e => simp [classifyItem, hrc, hopt] at h
    | ok options =>
      cases hfind : findSetvarCond item with
      | error e => simp [classifyItem, hrc, hopt, hfind] at h
      | ok oc =>
        cases oc with
        | some cr =>
          simp only [classifyItem, hrc, hopt, hfind, Except.ok.injEq] at h
          subst h
          simp [essayBranch, hrc, resolveScore_eq_scoreSpec item]
        | none =>
          simp only [classifyItem, hrc, hopt, hfind, Except.ok.injEq] at h
          subst h
          simp [essayBranch, hrc, resolveScore_eq_scoreSpec item]
  | none =>
    cases hrs : responseStrOf item with
    | some u =>
      simp only [classifyItem, hrc, hrs, Except.ok.injEq] at h
      subst h
      simp [essayBranch, hrs, resolveScore_eq_scoreSpec item]
    | none =>
      by_cases he : isEssayProfile item
      · simp only [classifyItem, hrc, hrs, he, if_true, Except.ok.injEq] at h
        subst h
        simp [essayBranch, hrc, hrs, he]
      · have he2 : isEssayProfile item = false := by simpa using he
        simp only [classifyItem, hrc, hrs, he2, Bool.false_eq_true, if_false,
          Except.ok.injEq] at h
        subst h
        simp [essayBranch, he2, resolveScore_eq_scoreSpec item]

/-- Witness for `c2_score_resolution` at `weightItem`, an item carrying a
`cc_weighting = 7` metadata field. -/
theorem c2_score_resolution_witness :
    (Question.mk "w1" "" "Unknown" [] (.str "N/A") "7").score =
      if essayBranch weightItem then "Manual grading" else scoreSpec weightItem :=
  c2_score_resolution weightItem (Question.mk "w1" "" "Unknown" [] (.str "N/A") "7") rfl

end Qti

namespace Qti

/-! ## Claim C3 -/

/-- C3 counterexample: `essayMcItem` declares `cc_profile = cc.essay.v0p1`
in its metadata, yet because its presentation also contains a
choice-rendering structure, the src/server.js classifier (which checks
structure before the profile tag) classifies it as Multiple Choice, keeps
the resolved `cc_weighting` score `"5"` instead of `"Manual grading"`, and
never sets the essay correct-answer literal — refuting the claim as stated
for this item. -/
theorem c3_essay_profile_counterexample :
    classifyItem essayMcItem =
      .ok { itemIdentifier := "e1", questionText := "",
            responseType := "Multiple Choice",
            options := [ { identifier := "A", text := "Paris" },
                         { identifier := "B", text := "Rome" } ],
            correctAnswer := .pair "N/A" "N/A", score := "5" } ∧
    ("Multiple Choice" : String) ≠ "Essay" := by
  refine ⟨rfl, ?_⟩
  decide

/-- C3 (amended): for every item whose metadata declares
`cc_profile = cc.essay.v0p1` AND whose presentation has no choice-rendering
structure and no free-text response structure (the two branches that
src/server.js checks first), the produced Question has responseType Essay,
correctAnswer `"Manual scoring required."`, and score `"Manual grading"`,
superseding any `cc_weighting` field or response-condition score. -/
theorem c3_essay_amended (item : Item)
    (h1 : renderChoiceOf item = none)
    (h2 : responseStrOf item = none)
    (h3 : isEssayProfile item = true) :
    classifyItem item =
      .ok { itemIdentifier := item.ident.getD "N/A",
            questionText := stripHtmlTags (presentationTextOf item),
            responseType := "Essay", options := [],
            correctAnswer := .str "Manual scoring required.",
            score := "Manual grading" } := by
  simp [classifyItem, h1, h2, h3]

/-- Witness for `c3_essay_amended` at `essayItem`, which also carries a
`cc_weighting = 5` field that the Essay branch supersedes. -/
theorem c3_essay_amended_witness :
    classifyItem essayItem =
      .ok { itemIdentifier := essayItem.ident.getD "N/A",
            questionText := stripHtmlTags (presentationTextOf essayItem),
            responseType := "Essay", options := [],
            correctAnswer := .str "Manual scoring required.",
            score := "Manual grading" } :=
  c3_essay_amended essayItem rfl rfl rfl

/-! ## Claim C5 -/

/-- C5 counterexample: on a manifest whose `resources.resource` is a single
non-list entry, the src/server.js resolution (cited by the claim alongside
the part_000 one) calls `.filter` on a non-array and fails the request with
a `TypeError`, where the claim promises an empty quizzes list; the
normalizing part_000 variant indeed returns `[]` on the same input. -/
theorem c5_singleton_resource_counterexample :
    resolveAssessmentsServer singletonResources =
      .error "TypeError: resources.filter is not a function" ∧
    resolveAssessments singletonResources = [] := by
  refine ⟨rfl, rfl⟩

/-- C5 (amended): the part_000 `/api/upload` resolution normalizes the
resources collection (absent value → empty list; single non-list value →
singleton list), filters on the exact assessment type tag, takes the first
file entry's reference path, and silently drops resources without one, so a
manifest with zero assessment-type resources or a single non-list resource
entry yields an empty list rather than a failure; the src/server.js
variant instead throws a `TypeError` on a non-list resources value. -/
theorem c5_resolve_amended (l : List Resource) (r rNoFile : Resource)
    (h : ∀ x ∈ l, x.type ≠ some assessmentType)
    (hf : rNoFile.file = none) :
    resolveAssessments { resource := none } = [] ∧
    resolveAssessments { resource := some (.many l) } = [] ∧
    resolveAssessments { resource := some (.one r) } =
      resolveAssessments { resource := some (.many [r]) } ∧
    resolveAssessments { resource := some (.many [rNoFile]) } = [] := by
  refine ⟨rfl, ?_, rfl, ?_⟩
  · have hfil : l.filter (fun x => x.type == some assessmentType) = [] := by
      rw [List.filter_eq_nil_iff]
      intro a ha
      simpa using h a ha
    simp [resolveAssessments, hfil]
  · by_cases hp : rNoFile.type == some assessmentType
    · simp [resolveAssessments, hp, hf]
    · simp [resolveAssessments, hp]

/-- Witness for `c5_resolve_amended` with a web-content resource list, an
assessment resource referencing `quiz.xml`, and an assessment resource
without a file entry. -/
theorem c5_resolve_amended_witness :
    resolveAssessments { resource := none } = [] ∧
    resolveAssessments { resource := some (.many [webResource]) } = [] ∧
    resolveAssessments { resource := some (.one quizResource) } =
      resolveAssessments { resource := some (.many [quizResource]) } ∧
    resolveAssessments { resource := some (.many [fileLessResource]) } = [] :=
  c5_resolve_amended [webResource] quizResource fileLessResource
    (by decide) rfl

end Qti

namespace Qti

/-! ## Claim C7 -/

/-- C7 counterexample: the src/api/upload.js classifier (cited by the
claim) initializes `responseType` to the placeholder `"N/A"` and only
overwrites it in its Multiple-Choice branch, so an item with no
choice-rendering structure, no free-text response structure, and no
profile tag is emitted with `responseType = "N/A"`, a value outside the
four-member enum — refuting the claim as stated. -/
theorem c7_api_placeholder_counterexample :
    classifyItemU bareItem =
      .ok { itemIdentifier := "q4", questionText := "",
            responseType := "N/A", options := [],
            correctAnswer := .str "N/A", score := "N/A" } ∧
    ("N/A" : String) ∉
      (["Multiple Choice", "Fill-in-the-Blank", "Essay", "Unknown"] : List String) := by
  refine ⟨rfl, ?_⟩
  decide

/-- C7 (amended): in the src/server.js classifier every produced Question
has a responseType among the four recognized values (the code strings for
MultipleChoice, FillInBlank, Essay, Unknown); in particular an item with no
choice-rendering structure, no free-text response structure, and no
recognized `cc_profile` tag is assigned `"Unknown"`.  The api/upload.js
variant instead leaves the placeholder `"N/A"` on any non-multiple-choice
item. -/
theorem c7_enum_amended (item : Item) (q : Question)
    (h : classifyItem item = Except.ok q) :
    q.responseType = "Multiple Choice" ∨ q.responseType = "Fill-in-the-Blank" ∨
    q.responseType = "Essay" ∨ q.responseType = "Unknown" := by
  cases hrc : renderChoiceOf item with
  | some rc =>
    cases hopt : extractOptions rc with
    | error e => simp [classifyItem, hrc, hopt] at h
    | ok options =>
      cases hfind : findSetvarCond item with
      | error e => simp [classifyItem, hrc, hopt, hfind] at h
      | ok oc =>
        cases oc with
        | some cr =>
          simp only [classifyItem, hrc, hopt, hfind, Except.ok.injEq] at h
          subst h
          simp
        | none =>
          simp only [classifyItem, hrc, hopt, hfind, Except.ok.injEq] at h
          subst h
          simp
  | none =>
    cases hrs : responseStrOf item with
    | some u =>
      simp only [classifyItem, hrc, hrs, Except.ok.injEq] at h
      subst h
      simp
    | none =>
      by_cases he : isEssayProfile item
      · simp only [classifyItem, hrc, hrs, he, if_true, Except.ok.injEq] at h
        subst h
        simp
      · have he2 : isEssayProfile item = false := by simpa using he
        simp only [classifyItem, hrc, hrs, he2, Bool.false_eq_true, if_false,
          Except.ok.injEq] at h
        subst h
        simp

/-- Witness for `c7_enum_amended` at `weightItem`, classified Unknown. -/
theorem c7_enum_amended_witness :
    (Question.mk "w1" "" "Unknown" [] (.str "N/A") "7").responseType = "Multiple Choice" ∨
    (Question.mk "w1" "" "Unknown" [] (.str "N/A") "7").responseType = "Fill-in-the-Blank" ∨
    (Question.mk "w1" "" "Unknown" [] (.str "N/A") "7").responseType = "Essay" ∨
    (Question.mk "w1" "" "Unknown" [] (.str "N/A") "7").responseType = "Unknown" :=
  c7_enum_amended weightItem (Question.mk "w1" "" "Unknown" [] (.str "N/A") "7") rfl

/-! ## Claim C9 -/

/-- C9 counterexample: the src/api/upload.js handler (cited by the claim)
has no `finally` block and never unlinks the staged upload or removes the
scratch directory: a fully successful run leaves both on disk, refuting the
claim that every exit path of every upload variant releases them. -/
theorem c9_api_residue_counterexample :
    apiUploadResidue allOkEnv = { stagedFile := true, scratchDir := true } ∧
    ({ stagedFile := true, scratchDir := true } : ScratchResidue) ≠
      { stagedFile := false, scratchDir := false } := by
  refine ⟨rfl, ?_⟩
  decide

/-- C9 (amended): in the src/server.js handler (and the identical part_000
handler) the `finally` block runs on every exit path — success, InputError,
ManifestError, or any extraction failure — unlinking the staged upload when
one exists and removing the scratch directory when it was created, so no
run leaves residual scratch entries; the api/upload.js handler performs no
cleanup at all. -/
theorem c9_server_cleanup_amended (env : UploadEnv) :
    serverUploadResidue env = { stagedFile := false, scratchDir := false } := by
  simp [serverUploadResidue]

end Qti

/-- Witness for `c10_sanitize_idempotent` at a concrete marked-up string. -/
theorem c10_sanitize_idempotent_witness :
    stripHtmlTags (some (stripHtmlTags (some "<p> a <b>b</b> </p>"))) =
      stripHtmlTags (some "<p> a <b>b</b> </p>") :=
  c10_sanitize_idempotent "<p> a <b>b</b> </p>"

namespace Qti

/-- Witness for `c9_server_cleanup_amended` at the all-steps-succeed
environment. -/
theorem c9_server_cleanup_amended_witness :
    serverUploadResidue allOkEnv = { stagedFile := false, scratchDir := false } :=
  c9_server_cleanup_amended allOkEnv

end Qti
